import Mathlib

/-!
Shallow embedding of `leptos_dom/src/lib.rs`: the node model, conversion
protocol, mounting protocol and handle lifecycle of the leptos DOM layer.

The `cfg(all(target_arch = "wasm32", feature = "web"))` conditional
compilation of the source is modelled by a `web : Bool` parameter threaded
through every definition the source gates: `web = true` is the browser
build, `web = false` the non-browser build.  Backend (DOM) handles are
natural numbers; the document backend is a `Backend` state recording the
next fresh handle, the ordered child list of every parent handle, and the
trace of backend calls issued so far.  A `WebSysNode` holds `some h` on the
browser build and `none` on the non-browser build, where the Rust type is a
zero-sized stub.  Rust panics are modelled explicitly as `Panic` values.
-/

namespace LeptosDom

/-- Opaque stand-in for `leptos_reactive::Scope` (external crate): the scope
is only passed through, never inspected, by the code modelled here. -/
structure Scope where
  id : Nat
deriving DecidableEq, Repr

/-- One call issued to the host document backend (`web_sys` via `gloo`). -/
inductive BackendCall where
  | createElement (name : String)
  | createTextNode (content : String)
  | createComment (text : String)
  | createDocumentFragment
  | appendChild (parent child : Nat)
  | insertBefore (anchor inserted : Nat)
  | remove (handle : Nat)
deriving DecidableEq, Repr

/-- State of the host document backend: the next fresh handle, the ordered
child-handle list of every parent handle (association list), and the trace
of calls issued so far. -/
structure Backend where
  nextHandle : Nat
  children : List (Nat × List Nat)
  calls : List BackendCall
deriving DecidableEq, Repr

/-- The empty backend. -/
def Backend.init : Backend := ⟨0, [], []⟩

/-- Ordered child-handle list associated with parent `p` (empty if absent). -/
def getEntry : List (Nat × List Nat) → Nat → List Nat
  | [], _ => []
  | e :: es, p => if e.1 = p then e.2 else getEntry es p

/-- Replace (or add) the child list associated with parent `p`. -/
def setEntry : List (Nat × List Nat) → Nat → List Nat → List (Nat × List Nat)
  | [], p, v => [(p, v)]
  | e :: es, p, v => if e.1 = p then (p, v) :: es else e :: setEntry es p v

/-- The ordered child-handle list of parent handle `p`. -/
def Backend.childList (σ : Backend) (p : Nat) : List Nat :=
  getEntry σ.children p

/-- `document.create_element(name)`: allocate a fresh element handle. -/
def Backend.createElement (σ : Backend) (name : String) : Nat × Backend :=
  (σ.nextHandle,
   { nextHandle := σ.nextHandle + 1, children := σ.children,
     calls := σ.calls ++ [.createElement name] })

/-- `document.create_text_node(content)`: allocate a fresh text handle. -/
def Backend.createTextNode (σ : Backend) (content : String) : Nat × Backend :=
  (σ.nextHandle,
   { nextHandle := σ.nextHandle + 1, children := σ.children,
     calls := σ.calls ++ [.createTextNode content] })

/-- `document.create_comment(text)`: allocate a fresh comment handle. -/
def Backend.createComment (σ : Backend) (text : String) : Nat × Backend :=
  (σ.nextHandle,
   { nextHandle := σ.nextHandle + 1, children := σ.children,
     calls := σ.calls ++ [.createComment text] })

/-- `document.create_document_fragment()`: allocate a fresh fragment handle. -/
def Backend.createDocumentFragment (σ : Backend) : Nat × Backend :=
  (σ.nextHandle,
   { nextHandle := σ.nextHandle + 1, children := σ.children,
     calls := σ.calls ++ [.createDocumentFragment] })

/-- `parent.append_child(h)`: append `h` as the last child of `p`. -/
def Backend.appendChild (σ : Backend) (p h : Nat) : Backend :=
  { nextHandle := σ.nextHandle,
    children := setEntry σ.children p (σ.childList p ++ [h]),
    calls := σ.calls ++ [.appendChild p h] }

/-- Insert `n` immediately before the first occurrence of `anchor` in a
sibling list; if `anchor` is absent the list is unchanged (the DOM treats a
detached anchor as a no-op at this level). -/
def insertBeforeList : List Nat → Nat → Nat → List Nat
  | [], _, _ => []
  | x :: xs, anchor, n =>
    if x = anchor then n :: x :: xs else x :: insertBeforeList xs anchor n

/-- `anchor.before(n)` (web_sys `before_with_node_1`): insert `n` immediately
before `anchor` in whichever child list contains it. -/
def Backend.insertBefore (σ : Backend) (anchor n : Nat) : Backend :=
  { nextHandle := σ.nextHandle,
    children := σ.children.map (fun e => (e.1, insertBeforeList e.2 anchor n)),
    calls := σ.calls ++ [.insertBefore anchor n] }

/-- `h.remove()` (web_sys `Element::remove`): detach `h` from every child
list. -/
def Backend.removeHandle (σ : Backend) (h : Nat) : Backend :=
  { nextHandle := σ.nextHandle,
    children := σ.children.map (fun e => (e.1, e.2.filter (fun x => x ≠ h))),
    calls := σ.calls ++ [.remove h] }

/-- Well-formedness of a backend state: every parent key recorded in the
child-list table was actually allocated (is below `nextHandle`). -/
def Backend.wf (σ : Backend) : Bool :=
  σ.children.all (fun e => decide (e.1 < σ.nextHandle))

/-- A Rust panic, by provenance. -/
inductive Panic where
  /-- The `todo!()` at the end of `mount_child` (src line 286). -/
  | todoPanic
  /-- Calling a wasm-bindgen imported function (such as
  `gloo::utils::document()`) on a non-wasm target aborts at runtime. -/
  | wasmBindgenUnavailable
deriving DecidableEq, Repr

/-- `gloo::utils::document()`: the host document exists only on the browser
build; on the non-browser build the wasm-bindgen import panics when called. -/
def glooDocument (web : Bool) : Except Panic Unit :=
  if web then .ok () else .error .wasmBindgenUnavailable

/-- `WebSysNode` (src 49-74): on the browser build a newtype over
`web_sys::Node` (here: `handle = some h`); on the non-browser build a
zero-sized stub (here: `handle = none`). -/
structure WebSysNode where
  handle : Option Nat
deriving DecidableEq, Repr

/-- The derived `Clone` of `WebSysNode` (src 51): cloning a `web_sys::Node`
clones the JS reference, so the clone designates the same backend node. -/
def WebSysNode.clone (n : WebSysNode) : WebSysNode := n

/-- `impl Drop for WebSysNode` (src 59-63, browser build only): dropping the
wrapper calls `remove()` on its node.  The non-browser stub has no `Drop`
implementation, hence no backend effect. -/
def WebSysNode.dropRun (n : WebSysNode) (σ : Backend) : Backend :=
  match n.handle with
  | some h => σ.removeHandle h
  | none => σ

/-- `Comment` (src 118-122). -/
structure Comment where
  node : WebSysNode
  content : String
deriving DecidableEq, Repr

/-- The derived `Clone` of `Comment` (src 118): clones the `WebSysNode`
(same backend node) and the content string. -/
def Comment.clone (c : Comment) : Comment := c

/-- `Comment::new` (src 124-141): on the browser build creates a backend
comment whose text is the content padded with one space on each side; on the
non-browser build the handle is the stub. -/
def Comment.new (web : Bool) (content : String) (σ : Backend) :
    Comment × Backend :=
  if web then
    let (h, σ) := σ.createComment (" " ++ content ++ " ")
    ({ node := ⟨some h⟩, content := content }, σ)
  else
    ({ node := ⟨none⟩, content := content }, σ)

/-- `Text` (src 144-147). -/
structure Text where
  node : WebSysNode
  content : String
deriving DecidableEq, Repr

/-- `Text::new` (src 155-173): on the browser build creates a backend text
node; on the non-browser build the handle is the stub.  No document access
happens on the non-browser build. -/
def Text.new (web : Bool) (content : String) (σ : Backend) : Text × Backend :=
  if web then
    let (h, σ) := σ.createTextNode content
    ({ node := ⟨some h⟩, content := content }, σ)
  else
    ({ node := ⟨none⟩, content := content }, σ)

mutual
/-- `Element` (src 77-83): name, void flag, backend handle, attributes and
ordered children.  The `HashMap` of attributes is modelled as an association
list (unused by the properties proved here). -/
inductive Element where
  | mk (name : String) (is_void : Bool) (node : WebSysNode)
      (attributes : List (String × String)) (children : List Node)
/-- `Component` (src 176-183): the `document_fragment` field exists only on
the browser build (`some` fragment handle there, `none` otherwise); two
marker comments bound the shared child list (`Rc<RefCell<Vec<Node>>>`,
modelled as a plain list). -/
inductive Component where
  | mk (document_fragment : Option Nat) (name : String) (opening : Comment)
      (children : List Node) (closing : Comment)
/-- `Node` (src 230-237): the closed variant type. -/
inductive Node where
  | Element (e : Element)
  | Text (t : Text)
  | Component (c : Component)
end

/-- Field accessor for `Element::_name`. -/
def Element.elName : Element → String
  | .mk n _ _ _ _ => n

/-- Field accessor for `Element::is_void`. -/
def Element.is_void : Element → Bool
  | .mk _ v _ _ _ => v

/-- Field accessor for `Element::node`. -/
def Element.node : Element → WebSysNode
  | .mk _ _ n _ _ => n

/-- Field accessor for `Element::attributes`. -/
def Element.attributes : Element → List (String × String)
  | .mk _ _ _ a _ => a

/-- Field accessor for `Element::children`. -/
def Element.children : Element → List Node
  | .mk _ _ _ _ c => c

/-- Field accessor for `Component::document_fragment`. -/
def Component.document_fragment : Component → Option Nat
  | .mk d _ _ _ _ => d

/-- Field accessor for `Component::name`. -/
def Component.compName : Component → String
  | .mk _ n _ _ _ => n

/-- Field accessor for `Component::opening`. -/
def Component.opening : Component → Comment
  | .mk _ _ o _ _ => o

/-- Field accessor for `Component::children`. -/
def Component.childNodes : Component → List Node
  | .mk _ _ _ c _ => c

/-- Field accessor for `Component::closing`. -/
def Component.closing : Component → Comment
  | .mk _ _ _ _ c => c

/-- Modelled from the spec: the fixed static table of void element names
(the `IntoElement` implementations live in the `html` module, which is not
in the sources; spec section 4.1 specifies a fixed static table of void,
child-less element names).  The standard HTML void-element set. -/
def voidNames : List String :=
  ["area", "base", "br", "col", "embed", "hr", "img", "input", "link",
   "meta", "param", "source", "track", "wbr"]

/-- Membership in the void-name table. -/
def isVoidName (s : String) : Bool := voidNames.contains s

/-- The `IntoElement` trait (declared in the missing `html` module; used by
`Element::new` via `el.name()` and `el.is_void()`): modelled as the record
of the two methods' results. -/
structure IntoElement where
  name : String
  is_void : Bool
deriving DecidableEq, Repr

/-- Modelled from the spec: an `IntoElement` whose voidness is determined by
the element name through the fixed void-name table (spec section 4.1). -/
def IntoElement.ofName (n : String) : IntoElement :=
  ⟨n, isVoidName n⟩

/-- `Element::new` (src 91-116): the browser build creates a backend element
handle; the non-browser build uses the stub and performs no document access.
Attributes and children start empty (`Default::default()`). -/
def Element.new (web : Bool) (el : IntoElement) (σ : Backend) :
    Element × Backend :=
  if web then
    let (h, σ) := σ.createElement el.name
    (.mk el.name el.is_void ⟨some h⟩ [] [], σ)
  else
    (.mk el.name el.is_void ⟨none⟩ [] [], σ)

/-- `Component::new` (src 191-227): the call
`gloo::utils::document().create_document_fragment()` on line 197 is NOT
under any `cfg` gate, so it runs on every build target; on the non-browser
target the wasm-bindgen import panics.  On the browser build the two marker
comments are appended, opening first, into the fresh document fragment
(`append_with_node_2`, modelled as two appends). -/
def Component.new (web : Bool) (name : String) (σ : Backend) :
    Except Panic (Component × Backend) :=
  match glooDocument web with
  | .error p => .error p
  | .ok () =>
    let (fragment, σ) := σ.createDocumentFragment
    let (opening, σ) := Comment.new web ("<" ++ name ++ ">") σ
    let (closing, σ) := Comment.new web ("</" ++ name ++ ">") σ
    let σ :=
      if web then
        (σ.appendChild fragment (opening.node.handle.getD 0)).appendChild
          fragment (closing.node.handle.getD 0)
      else σ
    .ok (.mk (if web then some fragment else none) name opening [] closing, σ)

/-- `Node::get_web_sys_node` (src 252-262, browser build): Element and Text
yield their own handle, a Component yields its document fragment's handle. -/
def Node.get_web_sys_node : Node → Option Nat
  | .Element (.mk _ _ n _ _) => n.handle
  | .Text t => t.node.handle
  | .Component (.mk df _ _ _ _) => df

/-- `MountKind` (src 290-296). -/
inductive MountKind where
  | Component (closing : Comment)
  | Element (el : WebSysNode)

/-- The single backend insertion performed by `mount_child` on the browser
build (src 269-284): for `MountKind::Component` insert the child's handle
immediately before the closing marker; for `MountKind::Element` append it as
the last child of the parent.  On the browser build every handle involved is
`some`; the `getD 0` defaults are never reached for browser-built values. -/
def mountInsertion (kind : MountKind) (child : Node) (σ : Backend) : Backend :=
  let c := (child.get_web_sys_node).getD 0
  match kind with
  | .Component closing => σ.insertBefore (closing.node.handle.getD 0) c
  | .Element el => σ.appendChild (el.handle.getD 0) c

/-- `mount_child` (src 265-288): the whole body sits inside
`cfg(all(target_arch = "wasm32", feature = "web"))`, so the non-browser
build is an empty function; the browser build performs the single insertion
and then unconditionally executes `todo!()` (src line 286).  The result is
the backend state reached together with the panic, if any, raised before
returning. -/
def mount_child (web : Bool) (kind : MountKind) (child : Node) (σ : Backend) :
    Backend × Option Panic :=
  if web then
    (mountInsertion kind child σ, some .todoPanic)
  else
    (σ, none)

/-- Modelled from the spec: the `Unit` placeholder component lives in the
missing `components` module; per spec section 4.2 it converts to an empty
placeholder node that renders nothing observable (an empty Text node). -/
def unitPlaceholderIntoNode (web : Bool) (_cx : Scope) (σ : Backend) :
    Node × Backend :=
  let (t, σ) := Text.new web "" σ
  (Node.Text t, σ)

/-- `impl IntoNode for ()` (src 20-24): delegates to `Unit.into_node`. -/
def unitIntoNode (web : Bool) (cx : Scope) (σ : Backend) : Node × Backend :=
  unitPlaceholderIntoNode web cx σ

/-- `impl IntoNode for Option<T>` (src 26-37): `Some(t)` converts `t`,
`None` delegates to `Unit.into_node`.  The `T: IntoNode` bound is modelled
by passing `T`'s conversion function explicitly. -/
def optionIntoNode {α : Type} (web : Bool)
    (f : α → Scope → Backend → Node × Backend) (x : Option α) (cx : Scope)
    (σ : Backend) : Node × Backend :=
  match x with
  | some t => f t cx σ
  | none => unitPlaceholderIntoNode web cx σ

/-- `impl IntoNode for Node` (src 239-243): identity. -/
def nodeIntoNode (self : Node) (_cx : Scope) : Node := self

/-- Modelled from the spec: `Fragment` (missing `components` module) is an
ordered group of nodes with no backend handle of its own (spec sections 2
and 4.2). -/
structure Fragment where
  nodes : List Node

/-- `Fragment::new`, modelled from the spec: wraps the sequence. -/
def Fragment.new (nodes : List Node) : Fragment := ⟨nodes⟩

/-- `impl IntoNode for Vec<Node>` (src 245-249):
`Fragment::new(self).into_node(cx)`.  Modelled from the spec: Fragment's own
`IntoNode` (missing `components` module) yields the fragment as the logical
node. -/
def vecIntoNode (v : List Node) (_cx : Scope) : Fragment := Fragment.new v

/-- Modelled from the spec: mounting a Fragment is mounting each member, in
order, at the same target (spec sections 4.2 and 4.3); each member
contributes its single insertion. -/
def mountFragment (kind : MountKind) (f : Fragment) (σ : Backend) : Backend :=
  f.nodes.foldl (fun σ n => mountInsertion kind n σ) σ

/-- Whether a backend call is one of the two insertion operations used by
`mount_child`. -/
def BackendCall.isInsertion : BackendCall → Bool
  | .appendChild _ _ => true
  | .insertBefore _ _ => true
  | _ => false

/-- Error of the HTML builder layer when children are attached to a void
element. -/
inductive BuilderError where
  | voidCannotHaveChildren
deriving DecidableEq, Repr

/-- Modelled from the spec: the HTML builder's child-attachment operation
(missing `html` module).  Per spec sections 3 and 8, attaching a child to a
void Element is rejected, not silently dropped; otherwise the child is
appended to the child sequence. -/
def Element.attachChild (e : Element) (child : Node) :
    Except BuilderError Element :=
  if e.is_void then .error .voidCannotHaveChildren
  else .ok (.mk e.elName e.is_void e.node e.attributes (e.children ++ [child]))

/-! Association-list lemmas about the backend's child-list table. -/

theorem getEntry_setEntry_self (l : List (Nat × List Nat)) (p : Nat)
    (v : List Nat) : getEntry (setEntry l p v) p = v := by
  induction l with
  | nil => simp [setEntry, getEntry]
  | cons e es ih =>
    by_cases h : e.1 = p
    · simp [setEntry, getEntry, h]
    · simp [setEntry, getEntry, h, ih]

theorem getEntry_eq_nil_of_forall_lt (l : List (Nat × List Nat)) (n : Nat)
    (h : ∀ e ∈ l, e.1 < n) : getEntry l n = [] := by
  induction l with
  | nil => rfl
  | cons e es ih =>
    have hne : e.1 ≠ n := Nat.ne_of_lt (h e (List.mem_cons_self e es))
    rw [getEntry, if_neg hne]
    exact ih fun x hx => h x (List.mem_cons_of_mem _ hx)

theorem getEntry_map_apply (l : List (Nat × List Nat)) (p : Nat)
    (f : List Nat → List Nat) (hf : f [] = []) :
    getEntry (l.map (fun e => (e.1, f e.2))) p = f (getEntry l p) := by
  induction l with
  | nil => simpa [getEntry] using hf.symm
  | cons e es ih =>
    by_cases hp : e.1 = p
    · simp [getEntry, hp]
    · simp [getEntry, hp, ih]

theorem childList_appendChild_self (σ : Backend) (p h : Nat) :
    (σ.appendChild p h).childList p = σ.childList p ++ [h] := by
  simp [Backend.appendChild, Backend.childList, getEntry_setEntry_self]

/-! Claim theorems. -/

/-- Claim C1 (evaluation at the failing inputs): on the browser build,
`mount_child` with `MountKind::Element(parent)` does append the child's
handle as the last child of the parent, and with `MountKind::Component`
does insert it immediately before the closing marker handle — but in both
cases the function then reaches the unconditional `todo!()` and panics
instead of returning, contradicting the claim that the mount operation
completes after performing the insertion. -/
theorem mount_child_inserts_then_todo_panics :
    mount_child true (MountKind.Element ⟨some 0⟩)
        (Node.Text ⟨⟨some 1⟩, "hi"⟩) ⟨2, [(0, [])], []⟩
      = (⟨2, [(0, [1])], [BackendCall.appendChild 0 1]⟩,
         some Panic.todoPanic) ∧
    mount_child true (MountKind.Component ⟨⟨some 3⟩, "</C>"⟩)
        (Node.Text ⟨⟨some 4⟩, "hi"⟩) ⟨5, [(0, [2, 3])], []⟩
      = (⟨5, [(0, [2, 4, 3])], [BackendCall.insertBefore 3 4]⟩,
         some Panic.todoPanic) :=
  ⟨rfl, rfl⟩

/-- Claim C2: on the browser build, for every `MountKind` and every child
`Node`, `mount_child` never returns normally: it issues exactly one backend
insertion call, allocates nothing, and unconditionally reaches `todo!()`
and panics. -/
theorem mount_child_web_never_returns (kind : MountKind) (child : Node)
    (σ : Backend) :
    (mount_child true kind child σ).2 = some Panic.todoPanic ∧
    (∃ call : BackendCall, call.isInsertion = true ∧
      (mount_child true kind child σ).1.calls = σ.calls ++ [call]) ∧
    (mount_child true kind child σ).1.nextHandle = σ.nextHandle := by
  refine ⟨rfl, ?_, ?_⟩
  · cases kind with
    | Component closing => exact ⟨.insertBefore _ _, rfl, rfl⟩
    | Element el => exact ⟨.appendChild _ _, rfl, rfl⟩
  · cases kind <;> rfl

/-- Claim C3 counterexample: `Comment` derives `Clone` (src 118) and the
clone's `WebSysNode` designates the same backend node (src 51-57, where the
source itself warns that cloning a `Comment` and letting it go out of scope
accidentally unmounts the node).  So a cloned marker is a second live value
sharing ownership of the same backend handle, and its destruction also
removes that handle — refuting, at this concrete input, that exactly one
live owner's destruction removes a marker's backend handle. -/
theorem comment_clone_shares_handle_double_removal :
    ((Comment.new true "x" Backend.init).1.clone).node.handle
        = (Comment.new true "x" Backend.init).1.node.handle ∧
    (((Comment.new true "x" Backend.init).1.clone).node.dropRun
        Backend.init).calls = [BackendCall.remove 0] ∧
    ((Comment.new true "x" Backend.init).1.node.dropRun Backend.init).calls
        = [BackendCall.remove 0] :=
  ⟨rfl, rfl, rfl⟩

/-- Claim C3 (amended): values produced by the constructors own pairwise
distinct, freshly allocated backend handles — a component's opening and
closing markers differ from each other and from any subsequently created
text node's handle — so no sharing arises from construction itself; sharing
a handle requires cloning the internal `Clone`-deriving wrappers. -/
theorem constructors_allocate_distinct_fresh_handles (name text : String)
    (σ : Backend) :
    ∃ comp σ₁, Component.new true name σ = Except.ok (comp, σ₁) ∧
      comp.opening.node.handle = some (σ.nextHandle + 1) ∧
      comp.closing.node.handle = some (σ.nextHandle + 1 + 1) ∧
      (Text.new true text σ₁).1.node.handle
        = some (σ.nextHandle + 1 + 1 + 1) ∧
      comp.opening.node.handle ≠ comp.closing.node.handle ∧
      (Text.new true text σ₁).1.node.handle ≠ comp.opening.node.handle ∧
      (Text.new true text σ₁).1.node.handle ≠ comp.closing.node.handle := by
  refine ⟨_, _, rfl, rfl, rfl, rfl, ?_, ?_, ?_⟩
  · simp [Component.opening, Component.closing]
  · simp [Text.new, Backend.createTextNode, Backend.appendChild,
      Component.opening]
    omega
  · simp [Text.new, Backend.createTextNode, Backend.appendChild,
      Component.closing]

/-- Claim C4: dropping the handle wrapper of an Element, Text, or marker on
the browser build invokes the backend removal of exactly that node: the
single call issued is `remove(h)`, no handle is allocated, and every
parent's child list afterwards is its previous list with exactly `h`
filtered out. -/
theorem websysnode_drop_removes_exactly_own_handle (h : Nat) (σ : Backend) :
    ((WebSysNode.mk (some h)).dropRun σ).calls
        = σ.calls ++ [BackendCall.remove h] ∧
    ((WebSysNode.mk (some h)).dropRun σ).nextHandle = σ.nextHandle ∧
    ∀ p : Nat, ((WebSysNode.mk (some h)).dropRun σ).childList p
        = (σ.childList p).filter (fun x => x ≠ h) := by
  refine ⟨rfl, rfl, fun p => ?_⟩
  show getEntry (σ.children.map (fun e => (e.1, e.2.filter (fun x => x ≠ h))))
      p = (getEntry σ.children p).filter (fun x => x ≠ h)
  exact getEntry_map_apply σ.children p _ rfl

/-- Claim C5: converting `Some(t)` is converting `t`, and converting `None`
is the same as converting `()` — both delegate to the `Unit` placeholder
conversion, so unit and `None` produce indistinguishable placeholder
nodes. -/
theorem option_some_none_into_node {α : Type} (web : Bool)
    (f : α → Scope → Backend → Node × Backend) (t : α) (cx : Scope)
    (σ : Backend) :
    optionIntoNode web f (some t) cx σ = f t cx σ ∧
    optionIntoNode web f none cx σ = unitIntoNode web cx σ :=
  ⟨rfl, rfl⟩

/-- Claim C6: converting a `Vec<Node>` wraps it as a Fragment preserving
member order, and mounting that Fragment under a parent element appends
exactly the members' handles, in order, after the parent's existing
children. -/
theorem vec_into_node_fragment_order (v : List Node) (cx : Scope) (p : Nat)
    (σ : Backend) :
    (vecIntoNode v cx).nodes = v ∧
    (mountFragment (MountKind.Element ⟨some p⟩) (vecIntoNode v cx)
        σ).childList p
      = σ.childList p ++ v.map (fun n => (n.get_web_sys_node).getD 0) := by
  refine ⟨rfl, ?_⟩
  show (List.foldl (fun σ n => mountInsertion (MountKind.Element ⟨some p⟩) n σ)
      σ v).childList p = _
  induction v generalizing σ with
  | nil => simp
  | cons n ns ih =>
    rw [List.foldl_cons, ih]
    have hstep : mountInsertion (MountKind.Element ⟨some p⟩) n σ
        = σ.appendChild p ((n.get_web_sys_node).getD 0) := rfl
    rw [hstep, childList_appendChild_self]
    simp

/-- Claim C7: `Component::new(name)` on the browser build allocates exactly
two marker comment nodes, labeled with the stable open and close
annotations derived from the name, and appends them into the fresh document
fragment with the opening marker preceding the closing marker.  The call
trace exhibits exactly two comment creations. -/
theorem component_new_two_labeled_markers (name : String) (σ : Backend)
    (hwf : σ.wf = true) :
    ∃ comp σ₁, Component.new true name σ = Except.ok (comp, σ₁) ∧
      comp.opening.content = "<" ++ name ++ ">" ∧
      comp.closing.content = "</" ++ name ++ ">" ∧
      comp.opening.node.handle = some (σ.nextHandle + 1) ∧
      comp.closing.node.handle = some (σ.nextHandle + 1 + 1) ∧
      comp.opening.node.handle ≠ comp.closing.node.handle ∧
      comp.document_fragment = some σ.nextHandle ∧
      σ₁.childList σ.nextHandle
        = [σ.nextHandle + 1, σ.nextHandle + 1 + 1] ∧
      σ₁.calls = σ.calls ++
        [BackendCall.createDocumentFragment,
         BackendCall.createComment (" " ++ ("<" ++ name ++ ">") ++ " "),
         BackendCall.createComment (" " ++ ("</" ++ name ++ ">") ++ " "),
         BackendCall.appendChild σ.nextHandle (σ.nextHandle + 1),
         BackendCall.appendChild σ.nextHandle (σ.nextHandle + 1 + 1)] := by
  have hk : ∀ e ∈ σ.children, e.1 < σ.nextHandle := by
    intro e he
    simpa using List.all_eq_true.mp hwf e he
  have h0 : getEntry σ.children σ.nextHandle = [] :=
    getEntry_eq_nil_of_forall_lt _ _ hk
  refine ⟨_, _, rfl, rfl, rfl, rfl, rfl, ?_, rfl, ?_, ?_⟩
  · simp [Component.opening, Component.closing]
  · change getEntry
        (setEntry
          (setEntry σ.children σ.nextHandle
            (getEntry σ.children σ.nextHandle ++ [σ.nextHandle + 1]))
          σ.nextHandle
          (getEntry
              (setEntry σ.children σ.nextHandle
                (getEntry σ.children σ.nextHandle ++ [σ.nextHandle + 1]))
              σ.nextHandle ++ [σ.nextHandle + 1 + 1]))
        σ.nextHandle
      = [σ.nextHandle + 1, σ.nextHandle + 1 + 1]
    rw [getEntry_setEntry_self, getEntry_setEntry_self, h0]
    rfl
  · simp [Backend.appendChild]

/-- Witness for claim C7: the concrete instance at the empty backend with
the name `"Foo"`. -/
theorem component_new_two_labeled_markers_witness :
    Backend.init.wf = true ∧
    (∃ comp σ₁,
      Component.new true "Foo" Backend.init = Except.ok (comp, σ₁) ∧
      comp.opening.content = "<" ++ "Foo" ++ ">" ∧
      comp.closing.content = "</" ++ "Foo" ++ ">" ∧
      comp.opening.node.handle = some (Backend.init.nextHandle + 1) ∧
      comp.closing.node.handle = some (Backend.init.nextHandle + 1 + 1) ∧
      comp.opening.node.handle ≠ comp.closing.node.handle ∧
      comp.document_fragment = some Backend.init.nextHandle ∧
      σ₁.childList Backend.init.nextHandle
        = [Backend.init.nextHandle + 1, Backend.init.nextHandle + 1 + 1] ∧
      σ₁.calls = Backend.init.calls ++
        [BackendCall.createDocumentFragment,
         BackendCall.createComment (" " ++ ("<" ++ "Foo" ++ ">") ++ " "),
         BackendCall.createComment (" " ++ ("</" ++ "Foo" ++ ">") ++ " "),
         BackendCall.appendChild Backend.init.nextHandle
           (Backend.init.nextHandle + 1),
         BackendCall.appendChild Backend.init.nextHandle
           (Backend.init.nextHandle + 1 + 1)]) :=
  ⟨rfl, component_new_two_labeled_markers "Foo" Backend.init rfl⟩

/-- Claim C8: every Element produced by `Element::new` starts with an empty
child sequence, its void flag is the one determined by the fixed void-name
table, and attaching a child to a void Element is rejected with an error
rather than silently dropped. -/
theorem void_elements_empty_and_reject_children (web : Bool) (nm : String)
    (σ : Backend) (e : Element) (child : Node) (hv : e.is_void = true) :
    (Element.new web (IntoElement.ofName nm) σ).1.children = [] ∧
    (Element.new web (IntoElement.ofName nm) σ).1.is_void = isVoidName nm ∧
    Element.attachChild e child
      = Except.error BuilderError.voidCannotHaveChildren := by
  refine ⟨?_, ?_, ?_⟩
  · cases web <;> rfl
  · cases web <;> rfl
  · simp [Element.attachChild, hv]

/-- Witness for claim C8: the void element `br` at the empty backend. -/
theorem void_elements_empty_and_reject_children_witness :
    (Element.mk "br" true ⟨some 0⟩ [] []).is_void = true ∧
    ((Element.new true (IntoElement.ofName "br") Backend.init).1.children
        = [] ∧
     (Element.new true (IntoElement.ofName "br") Backend.init).1.is_void
        = isVoidName "br" ∧
     Element.attachChild (Element.mk "br" true ⟨some 0⟩ [] [])
         (Node.Text ⟨⟨some 1⟩, "x"⟩)
       = Except.error BuilderError.voidCannotHaveChildren) :=
  ⟨rfl, void_elements_empty_and_reject_children true "br" Backend.init
      (Element.mk "br" true ⟨some 0⟩ [] []) (Node.Text ⟨⟨some 1⟩, "x"⟩) rfl⟩

/-- Claim C9: on the non-browser build, `mount_child` is a total silent
no-op for every `MountKind` and child: it issues no backend call, leaves the
backend state untouched, returns unit and raises no panic. -/
theorem mount_child_nonweb_silent_noop (kind : MountKind) (child : Node)
    (σ : Backend) : mount_child false kind child σ = (σ, none) :=
  rfl

/-- Claim C10: `Component::new` calls `gloo::utils::document()` outside any
`cfg` gate, so on the non-browser build it panics (the wasm-bindgen import
is unavailable) while on the browser build it succeeds; `Element::new` and
`Text::new` on the non-browser build construct stub handles, leaving the
backend state untouched. -/
theorem component_new_document_call_unconditional (name : String)
    (el : IntoElement) (content : String) (σ : Backend) :
    Component.new false name σ = Except.error Panic.wasmBindgenUnavailable ∧
    (∃ c σ₁, Component.new true name σ = Except.ok (c, σ₁)) ∧
    (Element.new false el σ).1.node.handle = none ∧
    (Element.new false el σ).2 = σ ∧
    (Text.new false content σ).1.node.handle = none ∧
    (Text.new false content σ).2 = σ :=
  ⟨rfl, ⟨_, _, rfl⟩, rfl, rfl, rfl, rfl⟩

end LeptosDom
